import Mathlib

/-!
# Verification of the relationship state engine

Shallow embedding of the `emma_eliza` relationship plugin (TypeScript) in
Lean 4. JavaScript numbers are modelled as rationals (`ℚ`); all arithmetic
in the embedded code is exact at the inputs the claims concern. `Date`
valued fields are dropped where no claim depends on them; where a
computation depends on elapsed time (the credibility recency factor) the
elapsed days are taken as an explicit rational parameter. `Math.log10` is
modelled as an arbitrary rational-valued function parameter. Fallible
TypeScript code (functions that `throw`) is embedded with `Except`.
-/

deriving instance DecidableEq for Except

namespace EmmaEliza

/-- A rational constant written as a fraction (`qc 7 10` embeds the
JavaScript literal `0.7`). `mkRat` keeps every embedded constant
kernel-reducible, which Lean's decimal `OfScientific` literals are not. -/
def qc (n : ℤ) (d : ℕ) : ℚ := mkRat n d

theorem qc_eq_div (n : ℤ) (d : ℕ) : qc n d = (n : ℚ) / d := Rat.mkRat_eq_div ..

/-- JavaScript `Math.min` on (non-`NaN`) numbers. -/
def jsMin (a b : ℚ) : ℚ := if a ≤ b then a else b

/-- JavaScript `Math.max` on (non-`NaN`) numbers. -/
def jsMax (a b : ℚ) : ℚ := if a ≤ b then b else a

theorem jsMin_eq_min (a b : ℚ) : jsMin a b = min a b := (min_def a b).symm

theorem jsMax_eq_max (a b : ℚ) : jsMax a b = max a b := (max_def a b).symm

/-- `EmotionalState` enum from `types.ts`. -/
inductive EmotionalState where
  | happy | sad | angry | frustrated
deriving DecidableEq, Repr

/-- `RelationshipState` enum from `types.ts`. -/
inductive RelationshipState where
  | stranger | acquaintance | friend | family | business
  | adversary | competitor | partner | enemy | unknown
deriving DecidableEq, Repr

/-- `SystemState` enum from `types.ts` (the pipeline stage). -/
inductive SystemState where
  | idle | monitoring | emotionAnalysis | userEvaluation | responseMode
deriving DecidableEq, Repr

/-- `ResponseMode` enum from `types.ts`. -/
inductive ResponseMode where
  | initial | ongoing | disengagement
deriving DecidableEq, Repr

/-- One `interactionHistory` entry (`InteractionHistory` in `types.ts`).
The `timestamp: Date` field is not modelled; no verified claim depends
on it. -/
structure Interaction where
  action : String
  emotionalState : EmotionalState
  responseType : String
deriving DecidableEq, Repr

/-- A `stateChangeLog` entry (`StateChange` in
`detailedTransitionEnhanced.ts`). The `timestamp: Date` field is not
modelled. -/
structure StateChange where
  previousState : RelationshipState
  newState : RelationshipState
  reason : String
deriving DecidableEq, Repr

/-- `RelationshipContext` from `types.ts`, with the dynamically attached
`stateChangeLog` modelled as a first-class field (initially empty, matching
the lazily initialised `[]` in the source). `userId` and
`lastInteraction` are not modelled; no verified claim depends on them. -/
structure RelationshipContext where
  currentState : SystemState
  emotionalState : EmotionalState
  relationshipState : RelationshipState
  responseMode : ResponseMode
  credibilityScore : ℚ
  interactionHistory : List Interaction
  stateChangeLog : List StateChange
deriving DecidableEq, Repr

/-- `RelationshipMetrics` from `types.ts`. -/
structure RelationshipMetrics where
  credibilityScore : ℚ
  interactionFrequency : ℚ
  averageSentiment : ℚ
deriving DecidableEq, Repr

/-! ## The enhanced state machine (`detailedTransitionEnhanced.ts`) -/

/-- `validateInputs` from `detailedTransitionEnhanced.ts`. The
null-checks on `context`/`metrics` are discharged by typing; the two range
checks are embedded as written. -/
def validateInputs (metrics : RelationshipMetrics) : Except String Unit :=
  if metrics.credibilityScore < 0 ∨ metrics.credibilityScore > 10 then
    .error "Invalid credibility score: must be between 0 and 10"
  else if metrics.averageSentiment < 0 ∨ metrics.averageSentiment > 1 then
    .error "Invalid sentiment: must be between 0 and 1"
  else
    .ok ()

/-- `logStateChange` from `detailedTransitionEnhanced.ts`: push one entry
onto the context's `stateChangeLog`. -/
def logStateChange (context : RelationshipContext)
    (previousState newState : RelationshipState) (reason : String) :
    RelationshipContext :=
  { context with
    stateChangeLog := context.stateChangeLog ++
      [{ previousState := previousState, newState := newState, reason := reason }] }

/-- One accepted transition in the `switch` body of
`updateDetailedRelationshipStateEnhanced`: assign the new state, then log
it (the source assigns `context.relationshipState` and then calls
`logStateChange` with the explicit previous/new pair of the rule). -/
def transitionTo (context : RelationshipContext) (next : RelationshipState)
    (reason : String) : RelationshipContext :=
  logStateChange { context with relationshipState := next }
    context.relationshipState next reason

/-- The per-state `switch` of `updateDetailedRelationshipStateEnhanced`
(`detailedTransitionEnhanced.ts`, evaluated only when the credibility
override did not fire). States without a `case` fall through unchanged. -/
def applyStateSwitch (context : RelationshipContext)
    (metrics : RelationshipMetrics) : RelationshipContext :=
  match context.relationshipState with
  | .stranger =>
      if metrics.interactionFrequency ≥ 5 ∧ metrics.averageSentiment > qc 5 10 then
        transitionTo context .acquaintance
          "Sufficient interactions and positive sentiment"
      else if metrics.credibilityScore ≥ 7 ∧ metrics.averageSentiment ≥ qc 8 10 then
        transitionTo context .business
          "High credibility and very positive sentiment"
      else context
  | .acquaintance =>
      if metrics.credibilityScore ≥ 8 ∧ metrics.averageSentiment ≥ qc 7 10 then
        transitionTo context .friend
          "High credibility and strongly positive sentiment"
      else if metrics.averageSentiment < qc 3 10 then
        transitionTo context .stranger "Significant drop in sentiment"
      else context
  | .friend =>
      if metrics.credibilityScore ≥ 9 ∧ metrics.averageSentiment ≥ qc 9 10 ∧
          metrics.interactionFrequency ≥ 20 then
        transitionTo context .partner "Exceptional metrics across all dimensions"
      else if metrics.averageSentiment < qc 4 10 ∨ metrics.credibilityScore < 6 then
        transitionTo context .acquaintance
          "Significant decline in relationship metrics"
      else context
  | .partner =>
      if metrics.averageSentiment < qc 6 10 ∨ metrics.credibilityScore < 7 then
        transitionTo context .friend "Decline in relationship strength"
      else context
  | .business =>
      if metrics.credibilityScore < 5 then
        transitionTo context .competitor "Decline in business relationship"
      else if metrics.averageSentiment ≥ qc 8 10 ∧ metrics.interactionFrequency ≥ 15 then
        transitionTo context .partner "Business relationship evolved to partnership"
      else context
  | .competitor =>
      if metrics.credibilityScore ≥ 6 ∧ metrics.averageSentiment ≥ qc 6 10 then
        transitionTo context .business "Improved business relationship"
      else if metrics.averageSentiment < qc 2 10 then
        transitionTo context .adversary "Hostile competitive relationship"
      else context
  | _ => context

/-- `updateDetailedRelationshipStateEnhanced` from
`detailedTransitionEnhanced.ts`, as a pure function. The returned pair is
the mutated context together with the list of contexts handed to the
persistence layer (`createMemory` wrapped in `retryOperation`); the store
itself is abstracted as always acknowledging, its failure/retry behaviour
is verified separately through `retryOperation`. A thrown validation
error is the `Except.error` case: the source throws before any mutation
or persistence call, so the error case carries no context and no
persisted record. -/
def updateDetailedRelationshipStateEnhanced (context : RelationshipContext)
    (metrics : RelationshipMetrics) :
    Except String (RelationshipContext × List RelationshipContext) :=
  match validateInputs metrics with
  | .error e => .error e
  | .ok () =>
      if metrics.credibilityScore < 2 then
        let c := transitionTo context .adversary "Credibility score too low"
        .ok (c, [c])
      else
        let c := applyStateSwitch context metrics
        .ok (c, [c])

/-! ## Metrics aggregation -/

/-- Per-emotion sentiment value of the `switch` inside
`calculateDetailedMetrics` (`detailedTransitionEnhanced.ts`). The
`default` arm of the source `switch` returns `0.5`; it is unreachable for
the four-valued enum and so has no arm here. -/
def detailedSentimentValue : EmotionalState → ℚ
  | .happy => 1
  | .frustrated => qc 3 10
  | .sad => 0
  | .angry => 0

/-- The `averageSentiment` computation of `calculateDetailedMetrics`
(`detailedTransitionEnhanced.ts`): mean of the per-entry values, `0.5`
for an empty history. -/
def detailedAverageSentiment (history : List Interaction) : ℚ :=
  let sentiments := history.map (fun i => detailedSentimentValue i.emotionalState)
  if sentiments.length > 0 then sentiments.sum / sentiments.length else qc 5 10

/-- The `sentimentMap` object literal in `calculateAverageSentiment`
(`historyAnalyzer`, `src/unnamed/part_005`). -/
def sentimentMap : EmotionalState → ℚ
  | .happy => 1
  | .sad => qc 3 10
  | .angry => 0
  | .frustrated => qc 2 10

/-- JavaScript `a || b` on numbers: `b` when `a` is falsy (`0`); `NaN`
cannot arise for the rational values involved. -/
def jsOrNum (a b : ℚ) : ℚ := if a = 0 then b else a

/-- `calculateAverageSentiment` from the history analyzer
(`src/unnamed/part_005`): `0` for an empty list, else the mean of
`sentimentMap[e] || 0.5` over the entries. -/
def calculateAverageSentiment (interactions : List Interaction) : ℚ :=
  if interactions.length = 0 then 0
  else
    (interactions.map (fun i => jsOrNum (sentimentMap i.emotionalState) (qc 5 10))).sum /
      interactions.length

/-! ## Credibility scoring (`providers/relationship.ts`) -/

/-- `ProfileReview` from `types.ts`. -/
structure ProfileReview where
  accountAge : ℚ
  followerCount : ℚ
  followingCount : ℚ
  verificationStatus : Bool
deriving DecidableEq, Repr

/-- `HistoryAnalysis` from `types.ts`. The `lastInteractionDate : Date`
field is replaced by the elapsed days `daysSinceLastInteraction` that
`calculateRecencyFactor` derives from it and the current time. -/
structure HistoryAnalysis where
  pastInteractions : ℚ
  positiveInteractions : ℚ
  negativeInteractions : ℚ
  daysSinceLastInteraction : ℚ
deriving DecidableEq, Repr

/-- `calculateAccountAgeScore` (`relationship.ts`). -/
def calculateAccountAgeScore (accountAge : ℚ) : ℚ :=
  jsMin (accountAge / (5 * 365)) 1 * 3

/-- `calculateFollowerScore` (`relationship.ts`); `log10` is the model of
`Math.log10`, an arbitrary rational-valued function parameter. -/
def calculateFollowerScore (log10 : ℚ → ℚ) (followerCount : ℚ) : ℚ :=
  jsMin (log10 (followerCount + 1) / 5) 1 * 2

/-- `calculateVerificationScore` (`relationship.ts`). -/
def calculateVerificationScore (isVerified : Bool) : ℚ :=
  if isVerified then 1 else 0

/-- `calculateInteractionFrequencyScore` (`relationship.ts`). -/
def calculateInteractionFrequencyScore (pastInteractions : ℚ) : ℚ :=
  jsMin (pastInteractions / 50) 1 * qc 15 10

/-- `calculateRecencyFactor` (`relationship.ts`), as a function of the
elapsed days it computes from `lastInteractionDate` and the clock. -/
def calculateRecencyFactor (daysSinceLastInteraction : ℚ) : ℚ :=
  if daysSinceLastInteraction ≤ 7 then 1
  else jsMax 0 (1 - (daysSinceLastInteraction - 7) / 30)

/-- `calculatePositiveInteractionRatio` (`relationship.ts`). -/
def calculatePositiveInteractionRatio (history : HistoryAnalysis) : ℚ :=
  if history.pastInteractions = 0 then 0
  else history.positiveInteractions / history.pastInteractions

/-- `calculateCredibilityScore` (`relationship.ts`, the detailed weighted
variant with recency decay). -/
def calculateCredibilityScore (log10 : ℚ → ℚ) (profile : ProfileReview)
    (history : HistoryAnalysis) : ℚ :=
  let accountAgeScore := calculateAccountAgeScore profile.accountAge
  let followerScore := calculateFollowerScore log10 profile.followerCount
  let verificationScore := calculateVerificationScore profile.verificationStatus
  let frequencyScore := calculateInteractionFrequencyScore history.pastInteractions
  let positiveRatio := calculatePositiveInteractionRatio history
  let recencyFactor := calculateRecencyFactor history.daysSinceLastInteraction
  let baseScore :=
    (accountAgeScore * qc 2 10 + followerScore * qc 15 100 + verificationScore * qc 1 10 +
      frequencyScore * qc 2 10 + positiveRatio * qc 25 100) * recencyFactor
  jsMin (jsMax (baseScore * 10) 0) 10

/-- `calculateCredibilityScore` from the legacy provider
(`src/unnamed/part_004`, simpler flat-additive variant, no recency
decay). `Math.max(history.pastInteractions, 1)` guards the ratio
denominator. -/
def calculateCredibilityScoreFlat (log10 : ℚ → ℚ) (profile : ProfileReview)
    (history : HistoryAnalysis) : ℚ :=
  let score : ℚ := 0
  let score := score + jsMin (profile.accountAge / 365) 5
  let score := score + jsMin (log10 profile.followerCount) 3
  let score := score + (if profile.verificationStatus then 2 else 0)
  let interactionScore :=
    (history.positiveInteractions - history.negativeInteractions) /
      jsMax history.pastInteractions 1
  let score := score + interactionScore * 5
  jsMax 0 (jsMin 10 score)

/-- `updateRelationshipState` from `providers/relationship.ts` (the
legacy metrics-driven derivation): the new relationship state as a
function of the metrics (every branch of the source chain assigns
`newState`, so the prior state never survives the chain). -/
def updateRelationshipState (credibilityScore averageSentiment : ℚ) :
    RelationshipState :=
  if credibilityScore ≥ 8 ∧ averageSentiment > qc 7 10 then .friend
  else if credibilityScore ≥ 7 ∧ averageSentiment > qc 5 10 then .partner
  else if credibilityScore ≥ 6 then .acquaintance
  else if credibilityScore ≥ 4 then .business
  else if credibilityScore ≥ 2 then .competitor
  else if averageSentiment < qc (-5) 10 then .adversary
  else if averageSentiment < qc (-8) 10 then .enemy
  else .stranger

/-! ## Retry helper (`detailedTransitionEnhanced.ts`) -/

/-- Loop body of `retryOperation`: `remaining` attempts are left, `i`
attempts were already made, `lastErr` is the last caught error and `ds`
the backoff delays slept so far. The source sleeps `delay * 2^i` after a
failed attempt `i` except after the final one (`i < maxRetries - 1`,
i.e. at least one attempt remains); after the loop it rethrows the last
error (an uninitialised `lastError` when `maxRetries = 0` is the
`"undefined"` error). The returned triple is (outcome, total attempts
made, delays slept). -/
def retryAux (op : ℕ → Except String α) (delay : ℕ) :
    (remaining : ℕ) → (i : ℕ) → Option String → List ℕ →
    Except String α × ℕ × List ℕ
  | 0, i, lastErr, ds =>
      ((match lastErr with | some e => .error e | none => .error "undefined"), i, ds)
  | r + 1, i, _, ds =>
      match op i with
      | .ok v => (.ok v, i + 1, ds)
      | .error e =>
          retryAux op delay r (i + 1) (some e)
            (if 0 < r then ds ++ [delay * 2 ^ i] else ds)

/-- `retryOperation` from `detailedTransitionEnhanced.ts`. The wrapped
asynchronous operation is modelled by the outcome `op i` of its `i`-th
invocation. -/
def retryOperation (op : ℕ → Except String α) (maxRetries delay : ℕ) :
    Except String α × ℕ × List ℕ :=
  retryAux op delay maxRetries 0 none []

/-! ## History trimming (`actions/monitor.ts`, `actions/userEvaluation.ts`) -/

/-- The relevant part of a `Memory`'s `content` as consumed by
`processNewMessages`: each field may be absent (JS `undefined`),
defaulted through `||`. -/
structure MessageContent where
  action : Option String
  emotionalState : Option EmotionalState
  responseType : Option String
deriving DecidableEq, Repr

/-- The history entry `processNewMessages` pushes for one message; the
`emotionalState` default is the untouched original context's
`emotionalState` (the loop closure reads the `context` parameter, not the
copy it mutates). -/
def newInteraction (orig : EmotionalState) (m : MessageContent) : Interaction :=
  { action := m.action.getD "MESSAGE"
    emotionalState := m.emotionalState.getD orig
    responseType := m.responseType.getD "NONE" }

/-- The interaction history after the push loop of `processNewMessages`
(`monitor.ts`), before the trim. -/
def fullHistory (context : RelationshipContext) (messages : List MessageContent) :
    List Interaction :=
  context.interactionHistory ++ messages.map (newInteraction context.emotionalState)

/-- `processNewMessages` from `monitor.ts`: push one entry per message,
track the last provided emotional state, then trim the history to the
last 100 entries (`slice(-100)`) when it exceeds 100. -/
def processNewMessages (context : RelationshipContext)
    (messages : List MessageContent) : RelationshipContext :=
  let h := fullHistory context messages
  let es := ((messages.filterMap (fun m => m.emotionalState)).getLast?).getD
    context.emotionalState
  let h' := if h.length > 100 then h.drop (h.length - 100) else h
  { context with interactionHistory := h', emotionalState := es }

/-- `UserEvaluationResult` fields consumed by `updateContext`
(`userEvaluation.ts`). -/
structure UserEvaluationResult where
  credibilityScore : ℚ
  relationshipState : RelationshipState
  recommendedResponseMode : ResponseMode
deriving DecidableEq, Repr

/-- `updateContext` from `userEvaluation.ts`: installs the evaluation
results, advances the pipeline stage to `RESPONSE_MODE` and appends one
`USER_EVALUATION` history entry — with no trim of the history. -/
def userEvaluationUpdateContext (context : RelationshipContext)
    (evaluation : UserEvaluationResult) : RelationshipContext :=
  { context with
    credibilityScore := evaluation.credibilityScore
    relationshipState := evaluation.relationshipState
    responseMode := evaluation.recommendedResponseMode
    currentState := .responseMode
    interactionHistory := context.interactionHistory ++
      [{ action := "USER_EVALUATION", emotionalState := context.emotionalState,
         responseType := "ANALYZED" }] }

/-! ## Pipeline-stage derivation and validation (`actions/responseMode.ts`) -/

/-- The `validTransitions` adjacency table of `validateStateTransition`
(`responseMode.ts`). -/
def validTransitions : SystemState → List SystemState
  | .idle => [.emotionAnalysis, .responseMode]
  | .emotionAnalysis => [.responseMode, .monitoring]
  | .responseMode => [.monitoring, .idle]
  | .monitoring => [.emotionAnalysis, .idle]
  | .userEvaluation => [.idle, .emotionAnalysis]

/-- `validateStateTransition` from `responseMode.ts`: throws the
non-retryable `INVALID_TRANSITION` error when the pair is absent from
the adjacency table. (The source's additional guard — `MONITORING` with a
falsy `context.emotionalState` — cannot fire for an enum-valued
emotional state and has no counterpart here.) -/
def validateStateTransition (currentState nextState : SystemState) :
    Except String Unit :=
  if nextState ∈ validTransitions currentState then .ok ()
  else .error "Invalid state transition"

/-- `determineNextState` from `responseMode.ts`. -/
def determineNextState (context : RelationshipContext) : SystemState :=
  if context.responseMode = .disengagement then .idle
  else if context.credibilityScore < 5 then .monitoring
  else .emotionAnalysis

/-! ## Emotion analysis text heuristics (`actions/emotionAnalysis.ts`)

The regular expressions of the source are word-alternation patterns with
`\b` boundaries and the `g` (and mostly `i`) flags; they are embedded by
tokenising the text into maximal runs of word characters
(`[A-Za-z0-9_]`, the JS `\w` class) and counting tokens. -/

/-- JS `\w` word character. -/
def isWordChar (c : Char) : Bool := c.isAlphanum || c = '_'

/-- Tokeniser helper: split a character list into maximal runs of word
characters (`acc` holds the current run, reversed). -/
def wordsOfAux : List Char → List Char → List String
  | [], acc => if acc.isEmpty then [] else [String.mk acc.reverse]
  | c :: cs, acc =>
      if isWordChar c then wordsOfAux cs (c :: acc)
      else if acc.isEmpty then wordsOfAux cs []
      else String.mk acc.reverse :: wordsOfAux cs []

/-- The `\b`-delimited word tokens of a string. -/
def wordsOf (s : String) : List String := wordsOfAux s.toList []

/-- Lower-casing for the `i` regex flag (`String.toLower`, written over
the character list). -/
def lowerString (s : String) : String := String.mk (s.toList.map Char.toLower)

/-- Number of matches of a case-insensitive word-alternation regex
`\b(w1|w2|...)\b/gi` (all alternatives single lower-case words). -/
def countWordAlternation (alternatives : List String) (text : String) : ℕ :=
  (wordsOf text).countP (fun w => alternatives.contains (lowerString w))

/-- `'!'` or `'?'`, the character class of the `/[!?]{2,}/g` intensifier. -/
def isBangOrQuestion (c : Char) : Bool := c = '!' || c = '?'

/-- Number of matches of `/[!?]{2,}/g`: greedy matching counts each
maximal run of `!`/`?` of length at least 2 once (`run` is the length of
the current run). -/
def countPunctRunsAux : List Char → ℕ → ℕ
  | [], run => if 2 ≤ run then 1 else 0
  | c :: cs, run =>
      if isBangOrQuestion c then countPunctRunsAux cs (run + 1)
      else (if 2 ≤ run then 1 else 0) + countPunctRunsAux cs 0

/-- Number of matches of the case-sensitive `/\b(CAPS|ALL CAPS)\b/g`
pattern, on the token list: an adjacent `ALL CAPS` pair is one match,
else a lone `CAPS` token is one match. -/
def countCapsTokens : List String → ℕ
  | [] => 0
  | "ALL" :: "CAPS" :: rest => 1 + countCapsTokens rest
  | "CAPS" :: rest => 1 + countCapsTokens rest
  | _ :: rest => countCapsTokens rest

/-- `calculateIntensity` from `emotionAnalysis.ts` (in
`responseMode.ts`'s source part): weighted counts of the four
intensifier patterns, clamped to `[0, 1]`. -/
def calculateIntensity (analysis : String) : ℚ :=
  let degreeCount := countWordAlternation ["very", "extremely", "highly", "intensely"] analysis
  let punctCount := countPunctRunsAux analysis.toList 0
  let capsCount := countCapsTokens (wordsOf analysis)
  let urgencyCount := countWordAlternation ["urgent", "immediate", "critical"] analysis
  let intensity : ℚ :=
    (degreeCount : ℚ) * qc 2 10 + (punctCount : ℚ) * qc 15 100 +
      (capsCount : ℚ) * qc 25 100 + (urgencyCount : ℚ) * qc 3 10
  jsMin (jsMax intensity 0) 1

/-- `getRelatedEmotionWords` from `emotionAnalysis.ts`. -/
def getRelatedEmotionWords : EmotionalState → List String
  | .happy => ["happy", "joy", "excited", "pleased", "delighted", "content"]
  | .sad => ["sad", "unhappy", "depressed", "down", "gloomy", "miserable"]
  | .angry => ["angry", "mad", "furious", "outraged", "irritated", "annoyed"]
  | .frustrated => ["frustrated", "stuck", "blocked", "helpless", "powerless"]

/-- `countEmotionReferences` from `emotionAnalysis.ts`: matches of the
emotion's word lexicon summed over the given texts. -/
def countEmotionReferences (emotion : EmotionalState) (texts : List String) : ℕ :=
  (texts.map (countWordAlternation (getRelatedEmotionWords emotion))).sum

/-- `determineDominantEmotion` from `emotionAnalysis.ts`: `reduce` over
the emotion/count entries in enum declaration order, seeded with `HAPPY`,
keeping the entry with a strictly higher count. -/
def determineDominantEmotion (sentimentAnalysis contextAnalysis : String) :
    EmotionalState :=
  let count := fun e => countEmotionReferences e [sentimentAnalysis, contextAnalysis]
  [EmotionalState.happy, .sad, .angry, .frustrated].foldl
    (fun dominant e => if count e > count dominant then e else dominant) .happy

/-- The concrete input text of the spec's emotion-inference scenario. -/
def emotionTestText : String :=
  "I am extremely happy and absolutely delighted with the results!"

/-! ## Fixtures -/

/-- A fresh context in the `STRANGER` tier (the creation default of the
providers, with a mid-range credibility score). -/
def strangerContext : RelationshipContext :=
  { currentState := .idle, emotionalState := .happy, relationshipState := .stranger,
    responseMode := .initial, credibilityScore := 5, interactionHistory := [],
    stateChangeLog := [] }

/-! ## Theorems -/

/-- C10: in the legacy metrics-driven `updateRelationshipState` of the
relationship provider the resulting relationship state is never `ENEMY`:
the branch guarded by `averageSentiment < -0.8` is unreachable because
any input reaching it already failed the earlier `averageSentiment < -0.5`
guard, and inputs reaching the sentiment guards with
`averageSentiment < -0.8` are mapped to `ADVERSARY` by the earlier
guard. -/
theorem C10_legacy_derivation_never_enemy (credibilityScore averageSentiment : ℚ) :
    updateRelationshipState credibilityScore averageSentiment ≠ .enemy ∧
    (credibilityScore < 2 → averageSentiment < qc (-8) 10 →
      updateRelationshipState credibilityScore averageSentiment = .adversary) := by
  have h85 : qc (-8) 10 < qc (-5) 10 := by norm_num [qc_eq_div]
  unfold updateRelationshipState
  constructor
  · split_ifs with h1 h2 h3 h4 h5 h6 h7 <;> simp_all
    linarith
  · intro hc hs
    split_ifs with h1 h2 h3 h4 h5 h6 h7 <;> first
      | rfl
      | (exfalso; first
          | exact absurd hc (by push_neg; linarith [h1.1])
          | exact absurd hc (by push_neg; linarith [h2.1])
          | exact absurd hc (by push_neg; linarith)
          | exact h6 (hs.trans h85)
          | exact absurd hs h7)

/-- C10 witness: a concrete input traversing the hypotheses of the
second conjunct. -/
theorem C10_legacy_derivation_never_enemy_witness :
    (1 : ℚ) < 2 ∧ qc (-9) 10 < qc (-8) 10 ∧
      updateRelationshipState 1 (qc (-9) 10) = .adversary :=
  ⟨by decide, by decide,
    (C10_legacy_derivation_never_enemy 1 (qc (-9) 10)).2 (by decide) (by decide)⟩

/-- C3: both credibility scoring variants — the detailed
weighted/recency-decay `calculateCredibilityScore` of
`providers/relationship.ts` and the flat-additive variant of the legacy
provider — return a value in `[0, 10]` for every profile review and
history analysis (and every model of `Math.log10`), because each ends in
a clamp to that interval. -/
theorem C3_credibility_score_in_range (log10 : ℚ → ℚ) (profile : ProfileReview)
    (history : HistoryAnalysis) :
    (0 ≤ calculateCredibilityScore log10 profile history ∧
      calculateCredibilityScore log10 profile history ≤ 10) ∧
    (0 ≤ calculateCredibilityScoreFlat log10 profile history ∧
      calculateCredibilityScoreFlat log10 profile history ≤ 10) := by
  have clamp1 : ∀ a : ℚ, 0 ≤ jsMin (jsMax a 0) 10 ∧ jsMin (jsMax a 0) 10 ≤ 10 := by
    intro a
    rw [jsMin_eq_min, jsMax_eq_max]
    exact ⟨le_min (le_max_right _ _) (by norm_num), min_le_right _ _⟩
  have clamp2 : ∀ a : ℚ, 0 ≤ jsMax 0 (jsMin 10 a) ∧ jsMax 0 (jsMin 10 a) ≤ 10 := by
    intro a
    rw [jsMin_eq_min, jsMax_eq_max]
    exact ⟨le_max_left _ _, max_le (by norm_num) (min_le_left _ _)⟩
  exact ⟨clamp1 _, clamp2 _⟩

/-- C4: `updateDetailedRelationshipStateEnhanced` fails with a
validation error exactly when the metrics are out of range
(`credibilityScore` outside `[0, 10]` or `averageSentiment` outside
`[0, 1]`); the source throws before mutating the context or calling the
store, which the embedding reflects by the error case carrying neither
an updated context nor a persisted record. (The remaining "missing
input" case of the claim — a `null` context or metrics — is discharged
by typing in the embedding.) -/
theorem C4_validation_error_iff_out_of_range (context : RelationshipContext)
    (metrics : RelationshipMetrics) :
    (∃ e, updateDetailedRelationshipStateEnhanced context metrics = .error e) ↔
      (metrics.credibilityScore < 0 ∨ metrics.credibilityScore > 10 ∨
        metrics.averageSentiment < 0 ∨ metrics.averageSentiment > 1) := by
  unfold updateDetailedRelationshipStateEnhanced validateInputs
  by_cases h1 : metrics.credibilityScore < 0 ∨ metrics.credibilityScore > 10
  · simp only [if_pos h1]
    exact iff_of_true ⟨_, rfl⟩ (by tauto)
  · by_cases h2 : metrics.averageSentiment < 0 ∨ metrics.averageSentiment > 1
    · simp only [if_neg h1, if_pos h2]
      exact iff_of_true ⟨_, rfl⟩ (by tauto)
    · simp only [if_neg h1, if_neg h2]
      refine iff_of_false ?_ (by tauto)
      split_ifs <;> rintro ⟨e, he⟩ <;> simp at he

/-- C1 counterexample: at a validated input with `credibilityScore = 1`
the override fires, but the logged reason is the capitalised string
`"Credibility score too low"`, not `"credibility score too low"` as the
claim states it. -/
theorem C1_counterexample :
    (updateDetailedRelationshipStateEnhanced strangerContext
          ⟨1, 10, qc 8 10⟩).map (fun p => p.1.stateChangeLog.map (fun s => s.reason)) =
        .ok ["Credibility score too low"] ∧
      ("Credibility score too low" : String) ≠ "credibility score too low" := by
  constructor <;> decide

/-- C1 (amended): for every context and validated metrics with
`credibilityScore < 2`, `updateDetailedRelationshipStateEnhanced` forces
`relationshipState` to `ADVERSARY` regardless of the prior state,
appends exactly one `stateChangeLog` entry whose reason is
`"Credibility score too low"`, and returns without consulting the
per-state transition table (the result is fully determined by this
override). -/
theorem C1_amended_low_credibility_override (context : RelationshipContext)
    (metrics : RelationshipMetrics)
    (h0 : 0 ≤ metrics.credibilityScore) (h1 : metrics.credibilityScore ≤ 10)
    (h2 : 0 ≤ metrics.averageSentiment) (h3 : metrics.averageSentiment ≤ 1)
    (hlow : metrics.credibilityScore < 2) :
    ∃ c, updateDetailedRelationshipStateEnhanced context metrics = .ok (c, [c]) ∧
      c = { context with
            relationshipState := .adversary
            stateChangeLog := context.stateChangeLog ++
              [{ previousState := context.relationshipState,
                 newState := .adversary,
                 reason := "Credibility score too low" }] } := by
  have hv1 : ¬(metrics.credibilityScore < 0 ∨ metrics.credibilityScore > 10) := by
    push_neg
    exact ⟨h0, h1⟩
  have hv2 : ¬(metrics.averageSentiment < 0 ∨ metrics.averageSentiment > 1) := by
    push_neg
    exact ⟨h2, h3⟩
  unfold updateDetailedRelationshipStateEnhanced validateInputs
  simp only [if_neg hv1, if_neg hv2, if_pos hlow]
  exact ⟨_, rfl, rfl⟩

/-- C1 witness: the amended override theorem applied at a concrete
validated input with `credibilityScore = 1` over a `FRIEND` context. -/
theorem C1_amended_low_credibility_override_witness :
    (0 : ℚ) ≤ 1 ∧ (1 : ℚ) ≤ 10 ∧ (0 : ℚ) ≤ qc 8 10 ∧ qc 8 10 ≤ 1 ∧ (1 : ℚ) < 2 ∧
      ∃ c, updateDetailedRelationshipStateEnhanced
          { strangerContext with relationshipState := .friend } ⟨1, 10, qc 8 10⟩ =
            .ok (c, [c]) ∧
        c = { { strangerContext with relationshipState := .friend } with
              relationshipState := .adversary
              stateChangeLog := [{ previousState := .friend, newState := .adversary,
                                   reason := "Credibility score too low" }] } :=
  ⟨by decide, by decide, by decide, by decide, by decide,
    C1_amended_low_credibility_override
      { strangerContext with relationshipState := .friend } ⟨1, 10, qc 8 10⟩
      (by decide) (by decide) (by decide) (by decide) (by decide)⟩

/-- The spec's per-state transition table (spec section 4.4), written
from the spec's words for comparison with the source's `switch`:
guarded rules over the metrics, first matching rule wins, unmatched
states (and unmatched guards) stay put. -/
def specTransitionTable (s : RelationshipState) (m : RelationshipMetrics) :
    RelationshipState :=
  match s with
  | .stranger =>
      if m.interactionFrequency ≥ 5 ∧ m.averageSentiment > qc 5 10 then .acquaintance
      else if m.credibilityScore ≥ 7 ∧ m.averageSentiment ≥ qc 8 10 then .business
      else .stranger
  | .acquaintance =>
      if m.credibilityScore ≥ 8 ∧ m.averageSentiment ≥ qc 7 10 then .friend
      else if m.averageSentiment < qc 3 10 then .stranger
      else .acquaintance
  | .friend =>
      if m.credibilityScore ≥ 9 ∧ m.averageSentiment ≥ qc 9 10 ∧
          m.interactionFrequency ≥ 20 then .partner
      else if m.averageSentiment < qc 4 10 ∨ m.credibilityScore < 6 then .acquaintance
      else .friend
  | .partner =>
      if m.averageSentiment < qc 6 10 ∨ m.credibilityScore < 7 then .friend
      else .partner
  | .business =>
      if m.credibilityScore < 5 then .competitor
      else if m.averageSentiment ≥ qc 8 10 ∧ m.interactionFrequency ≥ 15 then .partner
      else .business
  | .competitor =>
      if m.credibilityScore ≥ 6 ∧ m.averageSentiment ≥ qc 6 10 then .business
      else if m.averageSentiment < qc 2 10 then .adversary
      else .competitor
  | s => s

theorem applyStateSwitch_relState (context : RelationshipContext)
    (metrics : RelationshipMetrics) :
    (applyStateSwitch context metrics).relationshipState =
      specTransitionTable context.relationshipState metrics := by
  rcases h : context.relationshipState <;>
    simp only [applyStateSwitch, specTransitionTable, h] <;>
    split_ifs <;>
    simp [transitionTo, logStateChange, h]

theorem applyStateSwitch_log (context : RelationshipContext)
    (metrics : RelationshipMetrics) :
    (specTransitionTable context.relationshipState metrics =
        context.relationshipState ∧
      (applyStateSwitch context metrics).stateChangeLog =
        context.stateChangeLog) ∨
    (specTransitionTable context.relationshipState metrics ≠
        context.relationshipState ∧
      ∃ r, (applyStateSwitch context metrics).stateChangeLog =
        context.stateChangeLog ++
          [{ previousState := context.relationshipState,
             newState := specTransitionTable context.relationshipState metrics,
             reason := r }]) := by
  rcases h : context.relationshipState <;>
    simp only [applyStateSwitch, specTransitionTable, h] <;>
    first
      | exact Or.inl ⟨trivial, trivial⟩
      | (split_ifs <;>
         first
           | exact Or.inl ⟨rfl, rfl⟩
           | exact Or.inl ⟨trivial, trivial⟩
           | exact Or.inr ⟨by simp, _, by rw [← h]; exact rfl⟩)

/-- C2: for every context and validated metrics with
`credibilityScore ≥ 2`, `updateDetailedRelationshipStateEnhanced`
computes the next relationship state exactly per the spec's per-state
transition table; when no rule matches the state is unchanged and the
`stateChangeLog` untouched, and every accepted transition appends
exactly one log entry (recording the pre/post states of the rule that
fired). -/
theorem C2_transition_table (context : RelationshipContext)
    (metrics : RelationshipMetrics)
    (h0 : 0 ≤ metrics.credibilityScore) (h1 : metrics.credibilityScore ≤ 10)
    (h2 : 0 ≤ metrics.averageSentiment) (h3 : metrics.averageSentiment ≤ 1)
    (hc : 2 ≤ metrics.credibilityScore) :
    ∃ c, updateDetailedRelationshipStateEnhanced context metrics = .ok (c, [c]) ∧
      c.relationshipState = specTransitionTable context.relationshipState metrics ∧
      ((specTransitionTable context.relationshipState metrics =
          context.relationshipState ∧ c.stateChangeLog = context.stateChangeLog) ∨
       (specTransitionTable context.relationshipState metrics ≠
          context.relationshipState ∧
        ∃ r, c.stateChangeLog = context.stateChangeLog ++
          [{ previousState := context.relationshipState,
             newState := specTransitionTable context.relationshipState metrics,
             reason := r }])) := by
  have hv1 : ¬(metrics.credibilityScore < 0 ∨ metrics.credibilityScore > 10) := by
    push_neg
    exact ⟨h0, h1⟩
  have hv2 : ¬(metrics.averageSentiment < 0 ∨ metrics.averageSentiment > 1) := by
    push_neg
    exact ⟨h2, h3⟩
  have hlow : ¬metrics.credibilityScore < 2 := not_lt.mpr hc
  unfold updateDetailedRelationshipStateEnhanced validateInputs
  simp only [if_neg hv1, if_neg hv2, if_neg hlow]
  exact ⟨_, rfl, applyStateSwitch_relState context metrics,
    applyStateSwitch_log context metrics⟩

/-- C2 witness: the transition-table theorem applied at the spec's
end-to-end scenario A — a `STRANGER` context with credibility 5,
frequency 6 and sentiment 0.6 (expected: `ACQUAINTANCE`). -/
theorem C2_transition_table_witness :
    (0 : ℚ) ≤ 5 ∧ (5 : ℚ) ≤ 10 ∧ (0 : ℚ) ≤ qc 6 10 ∧ qc 6 10 ≤ 1 ∧ (2 : ℚ) ≤ 5 ∧
      (∃ c, updateDetailedRelationshipStateEnhanced strangerContext
            ⟨5, 6, qc 6 10⟩ = .ok (c, [c]) ∧
        c.relationshipState =
          specTransitionTable strangerContext.relationshipState ⟨5, 6, qc 6 10⟩ ∧
        ((specTransitionTable strangerContext.relationshipState ⟨5, 6, qc 6 10⟩ =
            strangerContext.relationshipState ∧
          c.stateChangeLog = strangerContext.stateChangeLog) ∨
         (specTransitionTable strangerContext.relationshipState ⟨5, 6, qc 6 10⟩ ≠
            strangerContext.relationshipState ∧
          ∃ r, c.stateChangeLog = strangerContext.stateChangeLog ++
            [{ previousState := strangerContext.relationshipState,
               newState := specTransitionTable strangerContext.relationshipState
                 ⟨5, 6, qc 6 10⟩,
               reason := r }]))) ∧
      specTransitionTable strangerContext.relationshipState ⟨5, 6, qc 6 10⟩ =
        .acquaintance :=
  ⟨by decide, by decide, by decide, by decide, by decide,
    C2_transition_table strangerContext ⟨5, 6, qc 6 10⟩
      (by decide) (by decide) (by decide) (by decide) (by decide),
    by decide⟩

/-- C5 counterexample: `updateContext` of `userEvaluation.ts` extends a
full 100-entry history to 101 entries — it performs no trim, refuting
the claim that every history-extending engine operation leaves at most
100 entries. -/
theorem C5_counterexample :
    (userEvaluationUpdateContext
        { strangerContext with
          interactionHistory := List.replicate 100 ⟨"MESSAGE", .happy, "NONE"⟩ }
        ⟨5, .friend, .ongoing⟩).interactionHistory.length = 101 ∧ 100 < 101 := by
  constructor <;> decide

/-- C5 (amended): the monitor path `processNewMessages` does maintain
the bound — after its trim the history has at most 100 entries, is a
suffix of the appended (oldest-first) history, and equals exactly the
most recent 100 entries whenever more than 100 were accumulated; but
`updateContext` of `userEvaluation.ts` appends without trimming and can
exceed the bound (see the counterexample). -/
theorem C5_amended_monitor_trim (context : RelationshipContext)
    (messages : List MessageContent) :
    (processNewMessages context messages).interactionHistory.length ≤ 100 ∧
    (processNewMessages context messages).interactionHistory <:+
      fullHistory context messages ∧
    ((fullHistory context messages).length > 100 →
      (processNewMessages context messages).interactionHistory =
        (fullHistory context messages).drop
          ((fullHistory context messages).length - 100)) := by
  have key : (processNewMessages context messages).interactionHistory =
      if (fullHistory context messages).length > 100 then
        (fullHistory context messages).drop
          ((fullHistory context messages).length - 100)
      else fullHistory context messages := rfl
  rw [key]
  split_ifs with hl
  · refine ⟨?_, List.drop_suffix _ _, fun _ => rfl⟩
    rw [List.length_drop]
    omega
  · exact ⟨by omega, List.suffix_refl _, fun hx => absurd hx hl⟩

/-- C5 witness: the monitor-trim theorem applied to a context already
holding 101 entries; its history is trimmed to the most recent 100. -/
theorem C5_amended_monitor_trim_witness :
    (fullHistory
        { strangerContext with
          interactionHistory := List.replicate 101 ⟨"MESSAGE", .happy, "NONE"⟩ }
        []).length > 100 ∧
    (processNewMessages
        { strangerContext with
          interactionHistory := List.replicate 101 ⟨"MESSAGE", .happy, "NONE"⟩ }
        []).interactionHistory =
      (fullHistory
          { strangerContext with
            interactionHistory := List.replicate 101 ⟨"MESSAGE", .happy, "NONE"⟩ }
          []).drop
        ((fullHistory
            { strangerContext with
              interactionHistory := List.replicate 101 ⟨"MESSAGE", .happy, "NONE"⟩ }
            []).length - 100) :=
  ⟨by decide,
    (C5_amended_monitor_trim
        { strangerContext with
          interactionHistory := List.replicate 101 ⟨"MESSAGE", .happy, "NONE"⟩ }
        []).2.2 (by decide)⟩

/-- The per-emotion value the history analyzer's lookup
`sentimentMap[e] || 0.5` actually realises, written out from the
amended claim: `ANGRY`'s stored value `0` is falsy in JavaScript, so
the `|| 0.5` fallback replaces it. -/
def analyzerEffectiveSentiment : EmotionalState → ℚ
  | .happy => 1
  | .sad => qc 3 10
  | .angry => qc 5 10
  | .frustrated => qc 2 10

/-- C6 counterexample: the history analyzer's `calculateAverageSentiment`
(`src/unnamed/part_005`) does not use the claimed per-emotion values: a
single `SAD` entry yields `0.3` where the claim prescribes `0.0`, and an
empty history yields `0` where the claim prescribes the neutral `0.5`. -/
theorem C6_counterexample :
    calculateAverageSentiment [⟨"MESSAGE", .sad, "NONE"⟩] = qc 3 10 ∧
    qc 3 10 ≠ 0 ∧
    calculateAverageSentiment [] = 0 ∧
    (0 : ℚ) ≠ qc 5 10 := by
  have hsad : jsOrNum (sentimentMap .sad) (qc 5 10) = qc 3 10 := by decide
  refine ⟨?_, by decide, rfl, by decide⟩
  simp [calculateAverageSentiment, hsad]

/-- C6 (amended): the enhanced metrics path (`calculateDetailedMetrics`)
computes `averageSentiment` as the mean of happy = 1.0,
frustrated = 0.3, sad = angry = 0.0, with 0.5 for an empty history —
exactly as the claim states; but the history analyzer's
`calculateAverageSentiment` uses happy = 1, sad = 0.3, frustrated = 0.2,
with `ANGRY`'s 0 replaced by 0.5 through the falsy `|| 0.5` fallback,
and an empty history yields 0. -/
theorem C6_amended_average_sentiment (history : List Interaction)
    (hne : history ≠ []) :
    detailedAverageSentiment [] = qc 5 10 ∧
    calculateAverageSentiment [] = 0 ∧
    detailedAverageSentiment history =
      (history.map (fun i => detailedSentimentValue i.emotionalState)).sum /
        history.length ∧
    calculateAverageSentiment history =
      (history.map (fun i => analyzerEffectiveSentiment i.emotionalState)).sum /
        history.length := by
  have hpos : 0 < history.length := List.length_pos.mpr hne
  have heff : ∀ e, jsOrNum (sentimentMap e) (qc 5 10) = analyzerEffectiveSentiment e := by
    intro e
    cases e <;> decide
  refine ⟨rfl, rfl, ?_, ?_⟩
  · unfold detailedAverageSentiment
    rw [if_pos (by simpa using hpos)]
    simp
  · unfold calculateAverageSentiment
    rw [if_neg (by omega)]
    simp [heff]

/-- C6 witness: the amended sentiment theorem applied to the singleton
`SAD` history. -/
theorem C6_amended_average_sentiment_witness :
    ([(⟨"MESSAGE", .sad, "NONE"⟩ : Interaction)] ≠ []) ∧
    detailedAverageSentiment [⟨"MESSAGE", .sad, "NONE"⟩] =
      ([(⟨"MESSAGE", .sad, "NONE"⟩ : Interaction)].map
          (fun i => detailedSentimentValue i.emotionalState)).sum /
        ([(⟨"MESSAGE", .sad, "NONE"⟩ : Interaction)].length) :=
  ⟨by decide,
    (C6_amended_average_sentiment [⟨"MESSAGE", .sad, "NONE"⟩] (by decide)).2.2.1⟩

/-- C7: for every operation wrapped by `retryOperation` with the
source's 3 attempts and base delay `d`: at most 3 attempts are ever
made; a successful attempt returns its result immediately (after 1, 2
or 3 attempts with backoff delays `[]`, `[d]`, `[d, d*2]`
respectively — the delay doubling each retry); and when all three
attempts fail the surfaced error is the one from the last attempt,
after delays `[d, d*2]`. In particular, failing twice and then
succeeding succeeds after exactly 3 total attempts. -/
theorem C7_retryOperation {α : Type} (op : ℕ → Except String α) (d : ℕ) :
    (retryOperation op 3 d).2.1 ≤ 3 ∧
    (∀ v, op 0 = .ok v → retryOperation op 3 d = (.ok v, 1, [])) ∧
    (∀ e0 v, op 0 = .error e0 → op 1 = .ok v →
      retryOperation op 3 d = (.ok v, 2, [d])) ∧
    (∀ e0 e1 v, op 0 = .error e0 → op 1 = .error e1 → op 2 = .ok v →
      retryOperation op 3 d = (.ok v, 3, [d, d * 2])) ∧
    (∀ e0 e1 e2, op 0 = .error e0 → op 1 = .error e1 → op 2 = .error e2 →
      retryOperation op 3 d = (.error e2, 3, [d, d * 2])) := by
  refine ⟨?_, ?_, ?_, ?_, ?_⟩
  · rcases h0 : op 0 with e0 | v0
    · rcases h1 : op 1 with e1 | v1
      · rcases h2 : op 2 with e2 | v2 <;>
          simp [retryOperation, retryAux, h0, h1, h2]
      · simp [retryOperation, retryAux, h0, h1]
    · simp [retryOperation, retryAux, h0]
  · intro v h0
    simp [retryOperation, retryAux, h0]
  · intro e0 v h0 h1
    simp [retryOperation, retryAux, h0, h1]
  · intro e0 e1 v h0 h1 h2
    simp [retryOperation, retryAux, h0, h1, h2]
  · intro e0 e1 e2 h0 h1 h2
    simp [retryOperation, retryAux, h0, h1, h2]

/-- The store stub of the spec's end-to-end scenario D: `put` fails on
its first two invocations and succeeds on the third. -/
def failTwiceThenSucceed : ℕ → Except String ℕ :=
  fun i => if i < 2 then .error "store failure" else .ok 42

/-- C7 witness: scenario D — the store fails twice then succeeds, and
the retried operation succeeds after exactly 3 total attempts with
delays `[1000, 2000]`. -/
theorem C7_retryOperation_witness :
    failTwiceThenSucceed 0 = .error "store failure" ∧
    failTwiceThenSucceed 1 = .error "store failure" ∧
    failTwiceThenSucceed 2 = .ok 42 ∧
    retryOperation failTwiceThenSucceed 3 1000 = (.ok 42, 3, [1000, 1000 * 2]) :=
  ⟨rfl, rfl, rfl,
    (C7_retryOperation failTwiceThenSucceed 1000).2.2.2.1
      "store failure" "store failure" 42 rfl rfl rfl⟩

/-- The spec's derivation rule for the next pipeline stage, written from
the spec's words: `DISENGAGEMENT` response mode yields `IDLE`,
credibility below 5 yields `MONITORING`, otherwise `EMOTION_ANALYSIS`. -/
def specDerivedStage (mode : ResponseMode) (credibilityScore : ℚ) : SystemState :=
  if mode = .disengagement then .idle
  else if credibilityScore < 5 then .monitoring
  else .emotionAnalysis

/-- A context sitting in the `RESPONSE_MODE` pipeline stage with an
`ONGOING` response mode and credibility 5 (the default flow). -/
def responseModeContext : RelationshipContext :=
  { strangerContext with
    currentState := SystemState.responseMode
    responseMode := ResponseMode.ongoing
    credibilityScore := 5 }

/-- C8 counterexample: from a context in the `RESPONSE_MODE` stage with
an `ONGOING` mode and credibility 5, the derived next stage is
`EMOTION_ANALYSIS` — but `RESPONSE_MODE → EMOTION_ANALYSIS` is not in
the adjacency table, so the validation raises the `InvalidTransition`
error; the derived stage does not pass validation as the claim
asserts. -/
theorem C8_counterexample :
    responseModeContext.currentState = .responseMode ∧
    determineNextState responseModeContext = .emotionAnalysis ∧
    validateStateTransition responseModeContext.currentState
        (determineNextState responseModeContext) =
      .error "Invalid state transition" := by
  refine ⟨rfl, ?_, ?_⟩ <;> decide

/-- C8 (amended): the next pipeline stage is derived exactly by the
stated rule (`DISENGAGEMENT → IDLE`; credibility < 5 → `MONITORING`;
else `EMOTION_ANALYSIS`), and `validateStateTransition` raises the
non-retryable `InvalidTransition` error precisely when the
`(currentState, nextState)` pair is absent from the fixed adjacency
table — but a stage derived from a context in the `RESPONSE_MODE` stage
passes that validation only when the context's mode is `DISENGAGEMENT`
or its credibility is below 5; the default `EMOTION_ANALYSIS`
derivation is rejected, since `RESPONSE_MODE → EMOTION_ANALYSIS` is not
in the table. -/
theorem C8_amended_stage_derivation (context : RelationshipContext) :
    determineNextState context =
      specDerivedStage context.responseMode context.credibilityScore ∧
    (∀ c n, validateStateTransition c n = .ok () ↔ n ∈ validTransitions c) ∧
    (validateStateTransition SystemState.responseMode (determineNextState context) =
        .ok () ↔
      (context.responseMode = .disengagement ∨ context.credibilityScore < 5)) := by
  refine ⟨rfl, ?_, ?_⟩
  · intro c n
    unfold validateStateTransition
    split_ifs with hcn <;> simp [hcn]
  · unfold determineNextState validateStateTransition
    rcases hm : context.responseMode <;>
      split_ifs with h1 h2 <;>
      simp_all [validTransitions]

/-- C8 witness: the amended theorem applied at a `DISENGAGEMENT`
context — the derived `IDLE` stage passes validation from
`RESPONSE_MODE`. -/
theorem C8_amended_stage_derivation_witness :
    validateStateTransition SystemState.responseMode
        (determineNextState
          { responseModeContext with responseMode := .disengagement }) = .ok () :=
  ((C8_amended_stage_derivation
      { responseModeContext with responseMode := .disengagement }).2.2).mpr
    (Or.inl rfl)

/-- C9: evaluating the source's emotion pipeline at the spec's concrete
text "I am extremely happy and absolutely delighted with the results!":
the dominant emotion is `HAPPY` as claimed, but `calculateIntensity`
returns 0.2, not a value above 0.7 — only the one degree adverb
"extremely" matches an intensifier pattern (weight 0.2; "absolutely" is
not in the lexicon, and the single "!" does not match `[!?]{2,}`),
contradicting the repository's own test
(`emotionAnalysis.test.ts`: `expect(intensity).toBeGreaterThan(0.7)`). -/
theorem C9_intensity_scenario :
    calculateIntensity emotionTestText = qc 2 10 ∧
    ¬ calculateIntensity emotionTestText > qc 7 10 ∧
    determineDominantEmotion emotionTestText "" = .happy := by
  have hdeg : countWordAlternation ["very", "extremely", "highly", "intensely"]
      emotionTestText = 1 := by decide
  have hpunct : countPunctRunsAux emotionTestText.toList 0 = 0 := by decide
  have hcaps : countCapsTokens (wordsOf emotionTestText) = 0 := by decide
  have hurg : countWordAlternation ["urgent", "immediate", "critical"]
      emotionTestText = 0 := by decide
  have hsum : ((1 : ℕ) : ℚ) * qc 2 10 + ((0 : ℕ) : ℚ) * qc 15 100 +
      ((0 : ℕ) : ℚ) * qc 25 100 + ((0 : ℕ) : ℚ) * qc 3 10 = qc 2 10 := by
    norm_num [qc_eq_div]
  have hval : calculateIntensity emotionTestText = qc 2 10 := by
    simp only [calculateIntensity, hdeg, hpunct, hcaps, hurg, hsum,
      jsMax_eq_max, jsMin_eq_min]
    rw [max_eq_left (by norm_num [qc_eq_div] : (0 : ℚ) ≤ qc 2 10),
      min_eq_left (by norm_num [qc_eq_div] : qc 2 10 ≤ 1)]
  refine ⟨hval, ?_, by decide⟩
  rw [hval]
  norm_num [qc_eq_div]

end EmmaEliza
